import Mathlib

/-!
Verification development for the Gemini Web Scraper CLI.

The repository has two variants of the same logic: a terminal interpreter
(`cli.mjs`, here `processCommand` / `loadState` / `saveStateFile`) and a
browser single-page interpreter (`Terminal.tsx`, here `webProcessCommand`).
Both wrap one request orchestrator (`scrapeWithGrounding`), embedded below
with an abstract backend `Nat → AttemptOutcome` giving the outcome of each
attempt, and an explicit run trace recording the result, the number of
attempts, the sleeps performed and the query string submitted per attempt.
-/

namespace Scraper

/-- A web citation as produced by the backend (the `web` field of a
grounding chunk): a uri and a title. -/
structure WebSource where
  uri : String
  title : String
deriving DecidableEq, Repr

/-- A grounding chunk of a backend response; its `web` field may be absent. -/
structure GroundingChunk where
  web : Option WebSource
deriving DecidableEq, Repr

/-- A successful backend response: the answer text and the optional list of
grounding chunks (`response.candidates[0].groundingMetadata.groundingChunks`
may be absent). -/
structure GenResponse where
  text : String
  groundingChunks : Option (List GroundingChunk)
deriving DecidableEq, Repr

/-- A JavaScript error value as observed by the retry loop: an optional
numeric `status`, a `message`, and whether the value is an `Error` instance
(the `instanceof Error` test). -/
structure JsError where
  status : Option Nat
  message : String
  isError : Bool
deriving DecidableEq, Repr

/-- The outcome of one attempt of the backend call `ai.models.generateContent`:
either a response or a thrown error. -/
inductive AttemptOutcome
  | ok (resp : GenResponse)
  | err (e : JsError)
deriving DecidableEq, Repr

/-- The value returned by `scrapeWithGrounding` on success. -/
structure ScrapeResult where
  text : String
  sources : List WebSource
deriving DecidableEq, Repr

/-- Success or failure (a thrown error message) of one orchestrator run. -/
inductive ScrapeOutcome
  | success (r : ScrapeResult)
  | failure (msg : String)
deriving DecidableEq, Repr

/-- Observable trace of one `scrapeWithGrounding` run: its outcome, how many
attempts were made, the sleep durations (ms, in order), and the query string
submitted on each attempt (in order). -/
structure RunTrace where
  result : ScrapeOutcome
  attempts : Nat
  sleeps : List Nat
  submitted : List String
deriving DecidableEq, Repr

/-- JavaScript `String.prototype.trim`: drop whitespace from both ends
(computed on the char list so that it evaluates by kernel reduction). -/
def jsTrim (s : String) : String :=
  ⟨(((s.data.dropWhile Char.isWhitespace).reverse.dropWhile Char.isWhitespace).reverse)⟩

/-- JavaScript `String.prototype.toLowerCase` (over the char list). -/
def jsToLower (s : String) : String :=
  ⟨s.data.map Char.toLower⟩

/-- `startsWithChars hay pat`: `pat` is a prefix of `hay` (over char lists). -/
def startsWithChars : List Char → List Char → Bool
  | _, [] => true
  | [], _ :: _ => false
  | h :: hs, p :: ps => h == p && startsWithChars hs ps

/-- `containsChars hay pat`: `pat` occurs contiguously inside `hay`. -/
def containsChars : List Char → List Char → Bool
  | [], pat => pat.isEmpty
  | h :: hs, pat => startsWithChars (h :: hs) pat || containsChars hs pat

/-- JavaScript `String.prototype.includes`: `strIncludes s pat` holds when
`pat` occurs as a contiguous substring of `s`. -/
def strIncludes (s pat : String) : Bool :=
  containsChars s.data pat.data

/-- Error message thrown when the API key is rejected. -/
def authMsg : String :=
  "The provided API key is not valid. Please check your environment configuration."

/-- Substring of the backend error message that marks an invalid credential. -/
def authMarker : String := "API key not valid"

/-- Error message thrown when the model stays overloaded after all retries. -/
def overloadMsg : String :=
  "The model is currently overloaded. Please try again later."

/-- Error message thrown for any other backend failure. -/
def upstreamMsg : String := "Failed to fetch data from Gemini API."

/-- Fallback error message after the loop exits without returning; unreachable
when MAX_RETRIES > 0. -/
def exhaustMsg : String := "Failed to fetch data from Gemini API after multiple retries."

/-- `const MAX_RETRIES = 3`. -/
def MAX_RETRIES : Nat := 3

/-- The `site:`-restriction clause: `sites.map(site => ` + "`site:${site.trim()}`" + `).join(' OR ')`. -/
def siteSearchQuery (sites : List String) : String :=
  String.intercalate " OR " (sites.map (fun site => "site:" ++ jsTrim site))

/-- The exclusion clause: `excludedSites.map(site => ` + "`-site:${site.trim()}`" + `).join(' ')`. -/
def excludeQuery (excludedSites : List String) : String :=
  String.intercalate " " (excludedSites.map (fun site => "-site:" ++ jsTrim site))

/-- The scoped query submitted to the backend:
`` `${query} ${siteSearchQuery} ${excludeQuery}`.trim() ``. -/
def fullQuery (query : String) (sites excludedSites : List String) : String :=
  jsTrim (query ++ " " ++ siteSearchQuery sites ++ " " ++ excludeQuery excludedSites)

/-- The catch-block classification of a non-retried error: first the
`instanceof Error`/`message.includes('API key not valid')` test, then the
503 test, else the generic upstream message. -/
def classifyError (e : JsError) : String :=
  if e.isError && strIncludes e.message authMarker then authMsg
  else if e.status = some 503 then overloadMsg
  else upstreamMsg

/-- Extraction of the citation candidates of a response:
`.map(chunk => chunk.web).filter(web => !!web && !!web.uri)` — drop chunks
whose `web` is absent and entries whose `uri` is falsy (the empty string). -/
def extractWebs (chunks : List GroundingChunk) : List WebSource :=
  (chunks.map (fun c => c.web)).filterMap
    (fun w => match w with
      | some v => if v.uri = "" then none else some v
      | none => none)

/-- One step of the dedup reduce: push `cur` unless an entry with the same
uri is already in `acc`. -/
def dedupStep (acc : List WebSource) (cur : WebSource) : List WebSource :=
  if acc.any (fun w => w.uri == cur.uri) then acc else acc ++ [cur]

/-- The `.reduce` call deduplicating citations by uri, keeping the first
occurrence. -/
def dedupByUri (l : List WebSource) : List WebSource :=
  l.foldl dedupStep []

/-- The success path of one attempt: the answer text verbatim, and the
grounding citations filtered and deduplicated (absent chunk list → `[]`). -/
def processResponse (r : GenResponse) : ScrapeResult :=
  { text := r.text
    sources := dedupByUri (extractWebs (r.groundingChunks.getD [])) }

/-- The retry loop of `scrapeWithGrounding`, unrolled on the number of
remaining iterations: `i` is the current loop index, `delay` the current
backoff delay, `remaining` the iterations left (initially MAX_RETRIES).
An error is retried exactly when its status is 503 and `i < MAX_RETRIES - 1`,
i.e. at least one iteration remains after the current one. -/
def scrapeGo (backend : Nat → AttemptOutcome) (fq : String) :
    Nat → Nat → Nat → RunTrace
  | _, _, 0 => ⟨.failure exhaustMsg, 0, [], []⟩
  | i, delay, remaining + 1 =>
    match backend i with
    | .ok resp => ⟨.success (processResponse resp), 1, [], [fq]⟩
    | .err e =>
      if e.status = some 503 ∧ 0 < remaining then
        let rest := scrapeGo backend fq (i + 1) (delay * 2) remaining
        ⟨rest.result, rest.attempts + 1, delay :: rest.sleeps, fq :: rest.submitted⟩
      else
        ⟨.failure (classifyError e), 1, [], [fq]⟩

/-- The request orchestrator `scrapeWithGrounding(query, sites, excludedSites)`:
builds the scoped query, then runs the bounded retry loop starting at index 0
with a 1000 ms delay. -/
def scrapeWithGrounding (backend : Nat → AttemptOutcome)
    (query : String) (sites excludedSites : List String) : RunTrace :=
  scrapeGo backend (fullQuery query sites excludedSites) 0 1000 MAX_RETRIES

/-- The terminal variant's in-memory session state (`let state = {...}` in
`cli.mjs`). `morningQuery` is an `Option` because, after loading a persisted
object that lacks the key, the field is `undefined` in JavaScript. -/
structure SessionState where
  sites : List String
  excludedSites : List String
  morningQuery : Option String
deriving DecidableEq, Repr

/-- The initial value of the `state` variable. -/
def defaultState : SessionState :=
  ⟨[], [], some "What are the top 3 latest news in technology?"⟩

/-- The JSON object persisted in `scraper-state.json`: each key may be absent.
`JSON.stringify` omits keys whose value is `undefined`, and `JSON.parse` of a
partial object simply lacks the keys. -/
structure PersistedObj where
  sites : Option (List String)
  excludedSites : Option (List String)
  morningQuery : Option String
deriving DecidableEq, Repr

/-- The possible outcomes of reading and parsing the state file. -/
inductive FileRead
  | missing
  | malformed
  | ok (p : PersistedObj)
deriving DecidableEq, Repr

/-- The merge performed by `loadState` on parsed data:
`state = { sites: [], excludedSites: [], ...loadedState }` — absent `sites` and
`excludedSites` default to `[]`; `morningQuery` is taken as-is (absent stays
absent, the previous default is not preserved). -/
def mergeLoaded (p : PersistedObj) : SessionState :=
  { sites := p.sites.getD []
    excludedSites := p.excludedSites.getD []
    morningQuery := p.morningQuery }

/-- `loadState()`: given the previous in-memory state and the file-read
outcome, return the new state and whether an error was logged. A missing file
(ENOENT) is silent and leaves the state unchanged; a parse failure logs and
leaves the state unchanged; a parsed object is merged over the defaults. -/
def loadState (prev : SessionState) : FileRead → SessionState × Bool
  | .missing => (prev, false)
  | .malformed => (prev, true)
  | .ok p => (mergeLoaded p, false)

/-- `saveState()`: the state file is overwritten with the JSON serialization of
the whole state object (a key with an `undefined` value is omitted). -/
def saveStateFile (s : SessionState) : PersistedObj :=
  ⟨some s.sites, some s.excludedSites, s.morningQuery⟩

/-- The add-site / add-exclude partition: arguments already present in the
current list (case-sensitive `includes`) go to `duplicates`, the rest to
`added`, each keeping argument order. -/
def addPartition (current args : List String) : List String × List String :=
  (args.filter (fun s => !current.contains s), args.filter (fun s => current.contains s))

/-- The list after an add-site command: `state.sites.push(...added)`. -/
def addSitesResult (current args : List String) : List String :=
  current ++ (addPartition current args).1

/-- Fixed message printed by the terminal variant when a scrape command runs
with no priority sites. -/
def noSitesMsg : String :=
  "Error: No priority sites to scrape. Please add a site using the \"add-site <url>\" command first."

/-- Fixed message printed by the browser variant when a scrape command runs
with no priority sites. -/
def webNoSitesMsg : String :=
  "Error: No priority sites to scrape. Please add a site using \"add-site <url>\" first."

/-- Usage message for a scrape command lacking a query. -/
def scrapeUsage : String := "Usage: scrape <query>"

/-- Result of dispatching one command in the terminal variant: the state
afterwards, the printed lines (rendering of a successful scrape box is
abstracted to its title line), the query passed to `scrapeWithGrounding` when
it was invoked, and the orchestrator trace of that invocation. -/
structure CommandResult where
  state : SessionState
  output : List String
  invoked : Option String
  trace : Option RunTrace
deriving DecidableEq, Repr

/-- The terminal variant's `processCommand`, for the commands the claims are
about (`add-site`, `set-morning-query`, `scrape`, `scrape-morning`, and the
unknown-command fallback); the verb is lower-cased, arguments come pre-split. -/
def processCommand (st : SessionState) (backend : Nat → AttemptOutcome)
    (cmd : String) (args : List String) : CommandResult :=
  let c := jsToLower cmd
  if c = "add-site" then
    if args.length > 0 then
      let added := (addPartition st.sites args).1
      let dups := (addPartition st.sites args).2
      { state := { st with sites := st.sites ++ added }
        output :=
          (if added.length > 0 then ["Priority sites added: " ++ String.intercalate ", " added] else [])
            ++ (if dups.length > 0 then ["Sites already existed: " ++ String.intercalate ", " dups] else [])
        invoked := none
        trace := none }
    else ⟨st, ["Usage: add-site <url1> [url2]..."], none, none⟩
  else if c = "set-morning-query" then
    let q := String.intercalate " " args
    if q = "" then ⟨st, ["Usage: set-morning-query <query>"], none, none⟩
    else ⟨{ st with morningQuery := some q }, ["Morning query set to: \"" ++ q ++ "\""], none, none⟩
  else if c = "scrape" ∨ c = "scrape-morning" then
    if st.sites.length = 0 then ⟨st, [noSitesMsg], none, none⟩
    else
      let isMorning := c = "scrape-morning"
      let q := if isMorning then st.morningQuery.getD "" else String.intercalate " " args
      if q = "" then ⟨st, [scrapeUsage], none, none⟩
      else
        let t := scrapeWithGrounding backend q st.sites st.excludedSites
        match t.result with
        | .success _ =>
          ⟨st, [(if isMorning then "Morning Scrape: \"" ++ q ++ "\"" else "Query: \"" ++ q ++ "\"")],
            some q, some t⟩
        | .failure m => ⟨st, ["Error: " ++ m], some q, some t⟩
  else ⟨st, ["Command not found: " ++ cmd ++ ". Type \x27help\x27 for a list of commands."], none, none⟩

/-- The browser variant's component state (`Terminal.tsx`): `morningQuery` is
always a string there (initialization coalesces a falsy stored value to the
default and the setter rejects an empty query). -/
structure WebState where
  sites : List String
  excludedSites : List String
  morningQuery : String
deriving DecidableEq, Repr

/-- Result of dispatching one command in the browser variant. -/
structure WebResult where
  state : WebState
  output : List String
  invoked : Option String
  trace : Option RunTrace
deriving DecidableEq, Repr

/-- The browser variant's `processCommand`, for the commands the claims are
about. `scrape` checks for priority sites and then for a non-empty query;
`scrape-morning` checks only for priority sites and submits the stored
morning query without any non-empty check. -/
def webProcessCommand (st : WebState) (backend : Nat → AttemptOutcome)
    (cmd : String) (args : List String) : WebResult :=
  let c := jsToLower cmd
  if c = "add-site" then
    if args.length > 0 then
      let added := (addPartition st.sites args).1
      { state := { st with sites := st.sites ++ added }
        output := [], invoked := none, trace := none }
    else ⟨st, ["Usage: add-site <url1> [url2]..."], none, none⟩
  else if c = "scrape" then
    if st.sites.length = 0 then ⟨st, [webNoSitesMsg], none, none⟩
    else
      let q := String.intercalate " " args
      if q = "" then ⟨st, [scrapeUsage], none, none⟩
      else
        let t := scrapeWithGrounding backend q st.sites st.excludedSites
        match t.result with
        | .success r => ⟨st, [r.text], some q, some t⟩
        | .failure m => ⟨st, ["Error: " ++ m], some q, some t⟩
  else if c = "scrape-morning" then
    if st.sites.length = 0 then ⟨st, [webNoSitesMsg], none, none⟩
    else
      let q := st.morningQuery
      let t := scrapeWithGrounding backend q st.sites st.excludedSites
      match t.result with
      | .success r =>
        ⟨st, ["Morning Scrape Results for: \"" ++ q ++ "\"", r.text], some q, some t⟩
      | .failure m => ⟨st, ["Error: " ++ m], some q, some t⟩
  else ⟨st, ["Command not found: " ++ cmd ++ ". Type \x27help\x27 for a list of commands."], none, none⟩

/-- Modelled from the spec: the scoped query string as the spec words it —
`query + " " + OR-joined "site:<s>" for each includeSite + " " + space-joined
"-site:<s>" for each excludeSite`, trimmed of surrounding whitespace. -/
def specScopedQuery (query : String) (includeSites excludeSites : List String) : String :=
  jsTrim (query ++ " "
    ++ String.intercalate " OR " (includeSites.map (fun s => "site:" ++ jsTrim s))
    ++ " "
    ++ String.intercalate " " (excludeSites.map (fun s => "-site:" ++ jsTrim s)))

/-- Modelled from the spec: deduplication by uri keeping the first occurrence
in first-seen order — keep the head, drop later entries with its uri, recurse. -/
def firstSeenDedup : List WebSource → List WebSource
  | [] => []
  | w :: ws => w :: firstSeenDedup (ws.filter (fun v => !(v.uri == w.uri)))
termination_by l => l.length
decreasing_by
  simp only [List.length_cons]
  exact Nat.lt_succ_of_le (List.length_filter_le _ _)

/-- A backend attempt outcome that the retry loop treats as a retryable
overload: a thrown error with status 503 that is not classified as an invalid
credential by the catch block. -/
def isOverloadSignal : AttemptOutcome → Bool
  | .ok _ => false
  | .err e => (e.status == some 503) && !(e.isError && strIncludes e.message authMarker)

theorem scrapeGo_zero (backend : Nat → AttemptOutcome) (fq : String) (i delay : Nat) :
    scrapeGo backend fq i delay 0 = ⟨.failure exhaustMsg, 0, [], []⟩ := rfl

theorem scrapeGo_ok (backend : Nat → AttemptOutcome) (fq : String) (i delay n : Nat)
    (r : GenResponse) (hb : backend i = .ok r) :
    scrapeGo backend fq i delay (n + 1) = ⟨.success (processResponse r), 1, [], [fq]⟩ := by
  conv_lhs => rw [scrapeGo, hb]

theorem scrapeGo_retry (backend : Nat → AttemptOutcome) (fq : String) (i delay n : Nat)
    (e : JsError) (hb : backend i = .err e) (hs : e.status = some 503) (hn : 0 < n) :
    scrapeGo backend fq i delay (n + 1)
      = ⟨(scrapeGo backend fq (i + 1) (delay * 2) n).result,
         (scrapeGo backend fq (i + 1) (delay * 2) n).attempts + 1,
         delay :: (scrapeGo backend fq (i + 1) (delay * 2) n).sleeps,
         fq :: (scrapeGo backend fq (i + 1) (delay * 2) n).submitted⟩ := by
  conv_lhs => rw [scrapeGo, hb]
  dsimp only
  rw [if_pos ⟨hs, hn⟩]

theorem scrapeGo_fail (backend : Nat → AttemptOutcome) (fq : String) (i delay n : Nat)
    (e : JsError) (hb : backend i = .err e) (hc : ¬(e.status = some 503 ∧ 0 < n)) :
    scrapeGo backend fq i delay (n + 1) = ⟨.failure (classifyError e), 1, [], [fq]⟩ := by
  conv_lhs => rw [scrapeGo, hb]
  dsimp only
  rw [if_neg hc]

theorem scrapeGo_submitted (backend : Nat → AttemptOutcome) (fq : String) :
    ∀ (n i delay : Nat),
      (scrapeGo backend fq i delay n).submitted
        = List.replicate (scrapeGo backend fq i delay n).attempts fq := by
  intro n
  induction n with
  | zero => intro i delay; rfl
  | succ m ih =>
    intro i delay
    cases hb : backend i with
    | ok r => rw [scrapeGo_ok backend fq i delay m r hb]; rfl
    | err e =>
      by_cases hc : e.status = some 503 ∧ 0 < m
      · rw [scrapeGo_retry backend fq i delay m e hb hc.1 hc.2]
        simp [ih (i + 1) (delay * 2), List.replicate]
      · rw [scrapeGo_fail backend fq i delay m e hb hc]; rfl

theorem foldl_dedupStep (l : List WebSource) :
    ∀ acc : List WebSource,
      l.foldl dedupStep acc
        = acc ++ firstSeenDedup (l.filter (fun w => !acc.any (fun v => v.uri == w.uri))) := by
  induction l with
  | nil => intro acc; simp [firstSeenDedup]
  | cons cur rest ih =>
    intro acc
    by_cases h : acc.any (fun v => v.uri == cur.uri)
    · have step : dedupStep acc cur = acc := by simp [dedupStep, h]
      rw [List.foldl_cons, step, ih acc,
        List.filter_cons_of_neg (by simp [h]), ]
    · have step : dedupStep acc cur = acc ++ [cur] := by simp [dedupStep, h]
      have hf : (fun w : WebSource => !(acc ++ [cur]).any fun v => v.uri == w.uri)
          = (fun w : WebSource => (!(w.uri == cur.uri)) && !(acc.any fun v => v.uri == w.uri)) := by
        funext w
        simp only [List.any_append, List.any_cons, List.any_nil, Bool.or_false, Bool.not_or]
        by_cases hw : cur.uri = w.uri
        · simp [hw]
        · have h1 : (cur.uri == w.uri) = false := by simp [hw]
          have h2 : (w.uri == cur.uri) = false := by
            simp only [beq_eq_false_iff_ne, ne_eq]
            exact fun hx => hw hx.symm
          simp [h1, h2, Bool.and_comm]
      rw [List.foldl_cons, step, ih (acc ++ [cur]),
        List.filter_cons_of_pos (by simp [h]), firstSeenDedup, hf,
        List.filter_filter, List.append_assoc, List.singleton_append]

theorem dedupByUri_eq_firstSeen (l : List WebSource) :
    dedupByUri l = firstSeenDedup l := by
  rw [dedupByUri, foldl_dedupStep l []]
  simp

/-- C1: for every invocation of scrapeWithGrounding in which the backend
signals transient overload (status 503) on every attempt, the orchestrator
makes exactly 3 attempts total (1 initial + 2 retries), sleeps exactly the
delay sequence [1000, 2000] milliseconds between them, makes no fourth
attempt, and fails with the overload error message. -/
theorem overload_exhausts_after_three_attempts
    (backend : Nat → AttemptOutcome) (q : String) (sites excl : List String)
    (h : ∀ i, i < 3 → isOverloadSignal (backend i) = true) :
    (scrapeWithGrounding backend q sites excl).result = .failure overloadMsg ∧
    (scrapeWithGrounding backend q sites excl).attempts = 3 ∧
    (scrapeWithGrounding backend q sites excl).sleeps = [1000, 2000] := by
  have unpack : ∀ i, i < 3 → ∃ e, backend i = .err e ∧ e.status = some 503 ∧
      (e.isError && strIncludes e.message authMarker) = false := by
    intro i hi
    have hi' := h i hi
    cases hb : backend i with
    | ok r => rw [hb] at hi'; simp [isOverloadSignal] at hi'
    | err e =>
      rw [hb] at hi'
      simp only [isOverloadSignal] at hi'
      obtain ⟨h503, hno⟩ := Bool.and_eq_true _ _ |>.mp hi'
      refine ⟨e, rfl, eq_of_beq h503, ?_⟩
      cases hbb : (e.isError && strIncludes e.message authMarker) with
      | false => rfl
      | true => rw [hbb] at hno; exact absurd hno (by decide)
  obtain ⟨e0, hb0, hs0, hc0⟩ := unpack 0 (by omega)
  obtain ⟨e1, hb1, hs1, hc1⟩ := unpack 1 (by omega)
  obtain ⟨e2, hb2, hs2, hc2⟩ := unpack 2 (by omega)
  set fq := fullQuery q sites excl with hfq
  have t2 : scrapeGo backend fq 2 4000 1 = ⟨.failure (classifyError e2), 1, [], [fq]⟩ := by
    have hr := scrapeGo_fail backend fq 2 4000 0 e2 hb2 (by rintro ⟨_, hx⟩; exact absurd hx (by omega))
    norm_num at hr
    exact hr
  have t1 : scrapeGo backend fq 1 2000 2 = ⟨.failure (classifyError e2), 2, [2000], [fq, fq]⟩ := by
    have hr := scrapeGo_retry backend fq 1 2000 1 e1 hb1 hs1 (by omega)
    norm_num at hr
    rw [hr, t2]
  have t0 : scrapeGo backend fq 0 1000 3
      = ⟨.failure (classifyError e2), 3, [1000, 2000], [fq, fq, fq]⟩ := by
    have hr := scrapeGo_retry backend fq 0 1000 2 e0 hb0 hs0 (by omega)
    norm_num at hr
    rw [hr, t1]
  have hcl : classifyError e2 = overloadMsg := by
    rw [classifyError, if_neg (by rw [hc2]; exact Bool.false_ne_true), if_pos hs2]
  rw [hcl] at t0
  unfold scrapeWithGrounding MAX_RETRIES
  rw [t0]
  exact ⟨rfl, rfl, rfl⟩

/-- Witness for C1: a backend that returns a 503 overload error on every
attempt yields the overload failure after exactly 3 attempts with sleeps
[1000, 2000]. -/
theorem overload_exhausts_witness :
    (scrapeWithGrounding (fun _ => AttemptOutcome.err ⟨some 503, "model overloaded", true⟩)
        "news" ["a.com"] ["b.com"]).result = .failure overloadMsg ∧
    (scrapeWithGrounding (fun _ => AttemptOutcome.err ⟨some 503, "model overloaded", true⟩)
        "news" ["a.com"] ["b.com"]).attempts = 3 ∧
    (scrapeWithGrounding (fun _ => AttemptOutcome.err ⟨some 503, "model overloaded", true⟩)
        "news" ["a.com"] ["b.com"]).sleeps = [1000, 2000] :=
  overload_exhausts_after_three_attempts
    (fun _ => AttemptOutcome.err ⟨some 503, "model overloaded", true⟩)
    "news" ["a.com"] ["b.com"] (by decide)

/-- C2: the scoped query submitted on every attempt is
query + " " + OR-joined site clauses + " " + space-joined exclusion clauses,
trimmed; the given concrete instance produces exactly
"X site:a.com OR site:b.com -site:c.com"; an empty include list yields an
empty site-restriction clause. -/
theorem scoped_query_construction (q : String) (I E : List String)
    (backend : Nat → AttemptOutcome) :
    fullQuery q I E = specScopedQuery q I E ∧
    (scrapeWithGrounding backend q I E).submitted
      = List.replicate (scrapeWithGrounding backend q I E).attempts (fullQuery q I E) ∧
    fullQuery "X" ["a.com", "b.com"] ["c.com"] = "X site:a.com OR site:b.com -site:c.com" ∧
    siteSearchQuery [] = "" :=
  ⟨rfl, scrapeGo_submitted backend (fullQuery q I E) MAX_RETRIES 0 1000, by decide, rfl⟩

/-- C3: for every successful backend response, the returned sources are the
citation list with entries lacking a uri removed and deduplicated by uri
keeping the first occurrence in first-seen order, the answer text is
returned verbatim, and the run's result is the processed response. -/
theorem sources_dedup_first_seen (r : GenResponse) :
    (processResponse r).text = r.text ∧
    (processResponse r).sources = firstSeenDedup (extractWebs (r.groundingChunks.getD [])) ∧
    (∀ (backend : Nat → AttemptOutcome) (q : String) (I E : List String),
      backend 0 = .ok r →
        (scrapeWithGrounding backend q I E).result = .success (processResponse r)) ∧
    processResponse ⟨"answer", some [⟨some ⟨"a", "A1"⟩⟩, ⟨some ⟨"b", "B"⟩⟩, ⟨some ⟨"a", "A2"⟩⟩]⟩
      = ⟨"answer", [⟨"a", "A1"⟩, ⟨"b", "B"⟩]⟩ := by
  refine ⟨rfl, dedupByUri_eq_firstSeen _, ?_, by decide⟩
  intro backend q I E hb
  unfold scrapeWithGrounding MAX_RETRIES
  have h := scrapeGo_ok backend (fullQuery q I E) 0 1000 2 r hb
  norm_num at h
  rw [h]

/-- Witness for C3: a concrete successful first attempt whose citations carry
a duplicated uri produces the deduplicated sources. -/
theorem sources_dedup_witness :
    (scrapeWithGrounding
        (fun _ => AttemptOutcome.ok ⟨"ans", some [⟨some ⟨"a", "A1"⟩⟩, ⟨some ⟨"a", "A2"⟩⟩]⟩)
        "q" ["s.com"] []).result
      = .success ⟨"ans", [⟨"a", "A1"⟩]⟩ := by
  rw [(sources_dedup_first_seen ⟨"ans", some [⟨some ⟨"a", "A1"⟩⟩, ⟨some ⟨"a", "A2"⟩⟩]⟩).2.2.1
    (fun _ => AttemptOutcome.ok ⟨"ans", some [⟨some ⟨"a", "A1"⟩⟩, ⟨some ⟨"a", "A2"⟩⟩]⟩)
    "q" ["s.com"] [] rfl]
  decide

/-- C4 counterexample: a first-attempt failure that is not a 503 overload
(here a plain network error with message "socket hang up") surfaces
immediately with zero sleeps, but the surfaced UpstreamError carries the
fixed message "Failed to fetch data from Gemini API.", which does not
contain (wrap) the original error message. -/
theorem upstream_discards_original_message :
    (scrapeWithGrounding (fun _ => AttemptOutcome.err ⟨none, "socket hang up", true⟩)
        "q" ["a.com"] []).result = .failure upstreamMsg ∧
    (scrapeWithGrounding (fun _ => AttemptOutcome.err ⟨none, "socket hang up", true⟩)
        "q" ["a.com"] []).sleeps = [] ∧
    (scrapeWithGrounding (fun _ => AttemptOutcome.err ⟨none, "socket hang up", true⟩)
        "q" ["a.com"] []).attempts = 1 ∧
    strIncludes upstreamMsg "socket hang up" = false := by decide

/-- C4 amended: when the first failure is not an overload (503) signal, the
orchestrator performs zero sleeps and fails on attempt 1: with the
invalid-credential message when the error is an Error instance whose message
contains "API key not valid", otherwise with the fixed upstream message
"Failed to fetch data from Gemini API." (the original message is not
wrapped). -/
theorem nonoverload_fails_immediately (backend : Nat → AttemptOutcome)
    (q : String) (I E : List String) (e : JsError)
    (hb : backend 0 = .err e) (hs : e.status ≠ some 503) :
    scrapeWithGrounding backend q I E
      = ⟨.failure (if e.isError && strIncludes e.message authMarker then authMsg else upstreamMsg),
         1, [], [fullQuery q I E]⟩ := by
  unfold scrapeWithGrounding MAX_RETRIES
  have hr := scrapeGo_fail backend (fullQuery q I E) 0 1000 2 e hb (by rintro ⟨h1, _⟩; exact hs h1)
  norm_num at hr
  rw [hr]
  by_cases hcond : (e.isError && strIncludes e.message authMarker) = true
  · rw [classifyError, if_pos hcond, if_pos hcond]
  · rw [classifyError, if_neg hcond, if_neg hs, if_neg hcond]

/-- Witness for the amended C4: a concrete non-overload, non-credential error
fails immediately with the fixed upstream message and no sleeps. -/
theorem nonoverload_witness :
    scrapeWithGrounding (fun _ => AttemptOutcome.err ⟨none, "boom", true⟩) "q" ["a.com"] []
      = ⟨.failure upstreamMsg, 1, [], [fullQuery "q" ["a.com"] []]⟩ := by
  rw [nonoverload_fails_immediately (fun _ => AttemptOutcome.err ⟨none, "boom", true⟩)
    "q" ["a.com"] [] ⟨none, "boom", true⟩ rfl (by decide)]
  decide

/-- C5 counterexample: the add-site partition checks arguments only against
the pre-existing list, so repeating a new site in a single command inserts it
twice — the resulting list is not duplicate-free. -/
theorem addsite_repeated_args_duplicate :
    addSitesResult [] ["a", "a"] = ["a", "a"] ∧
    ¬ (addSitesResult [] ["a", "a"]).Nodup ∧
    (processCommand defaultState (fun _ => AttemptOutcome.ok ⟨"", none⟩)
        "add-site" ["a", "a"]).state.sites = ["a", "a"] := by decide

/-- C5 amended: add-site partitions the arguments into added = entries not in
the current list and duplicates = entries already in it (case-sensitive exact
match, checked against the pre-existing list only), and the resulting list is
the current list with the added entries appended, existing entries unmoved;
the no-duplicate invariant is preserved when the current list has no
duplicates and the argument list itself has none (repeating an argument in
one command can violate it). -/
theorem contains_true_iff (L : List String) (s : String) : L.contains s = true ↔ s ∈ L :=
  List.elem_iff

theorem contains_false_iff (L : List String) (s : String) : L.contains s = false ↔ s ∉ L := by
  constructor
  · intro h hmem
    have ht := (contains_true_iff L s).mpr hmem
    rw [h] at ht
    exact Bool.false_ne_true ht
  · intro h
    cases hc : L.contains s with
    | false => rfl
    | true => exact absurd ((contains_true_iff L s).mp hc) h

theorem addsites_partition_corrected (L E : List String) :
    (addPartition L E).1 = E.filter (fun s => !L.contains s) ∧
    (addPartition L E).2 = E.filter (fun s => L.contains s) ∧
    (∀ s, s ∈ (addPartition L E).1 ↔ s ∈ E ∧ s ∉ L) ∧
    (∀ s, s ∈ (addPartition L E).2 ↔ s ∈ E ∧ s ∈ L) ∧
    addSitesResult L E = L ++ (addPartition L E).1 ∧
    (∀ (st : SessionState) (backend : Nat → AttemptOutcome),
      st.sites = L → E ≠ [] →
        (processCommand st backend "add-site" E).state.sites = addSitesResult L E) ∧
    (L.Nodup → E.Nodup → (addSitesResult L E).Nodup) := by
  refine ⟨rfl, rfl, ?_, ?_, rfl, ?_, ?_⟩
  · intro s
    rw [addPartition]
    dsimp only
    rw [List.mem_filter, Bool.not_eq_true', contains_false_iff]
  · intro s
    rw [addPartition]
    dsimp only
    rw [List.mem_filter, contains_true_iff]
  · intro st backend hst hE
    simp only [processCommand]
    rw [if_pos (by decide : jsToLower "add-site" = "add-site"),
      if_pos (by simpa [List.length_pos] using hE)]
    dsimp only
    rw [hst]
    rfl
  · intro hL hE
    rw [addSitesResult]
    refine List.Nodup.append hL (hE.filter _) ?_
    intro s hsL hsF
    have hp := List.of_mem_filter hsF
    rw [Bool.not_eq_true'] at hp
    have ht := (contains_true_iff L s).mpr hsL
    rw [hp] at ht
    exact Bool.false_ne_true ht

/-- Witness for the amended C5: adding ["a", "x"] to the list ["x"] appends
only "a", reports "x" as a duplicate, and keeps the list duplicate-free. -/
theorem addsites_partition_witness :
    (addPartition ["x"] ["a", "x"]).1 = ["a"] ∧
    (addPartition ["x"] ["a", "x"]).2 = ["x"] ∧
    addSitesResult ["x"] ["a", "x"] = ["x", "a"] ∧
    (addSitesResult ["x"] ["a", "x"]).Nodup ∧
    (processCommand ⟨["x"], [], none⟩ (fun _ => AttemptOutcome.ok ⟨"", none⟩)
        "add-site" ["a", "x"]).state.sites = addSitesResult ["x"] ["a", "x"] :=
  ⟨by decide, by decide, by decide,
    (addsites_partition_corrected ["x"] ["a", "x"]).2.2.2.2.2.2 (by decide) (by decide),
    (addsites_partition_corrected ["x"] ["a", "x"]).2.2.2.2.2.1
      ⟨["x"], [], none⟩ (fun _ => AttemptOutcome.ok ⟨"", none⟩) rfl (by decide)⟩

theorem processCommand_scrape (st : SessionState) (backend : Nat → AttemptOutcome)
    (args : List String) :
    processCommand st backend "scrape" args
      = if st.sites.length = 0 then ⟨st, [noSitesMsg], none, none⟩
        else if String.intercalate " " args = "" then ⟨st, [scrapeUsage], none, none⟩
        else
          match (scrapeWithGrounding backend (String.intercalate " " args)
              st.sites st.excludedSites).result with
          | .success _ =>
            ⟨st, ["Query: \"" ++ String.intercalate " " args ++ "\""],
              some (String.intercalate " " args),
              some (scrapeWithGrounding backend (String.intercalate " " args)
                st.sites st.excludedSites)⟩
          | .failure m =>
            ⟨st, ["Error: " ++ m], some (String.intercalate " " args),
              some (scrapeWithGrounding backend (String.intercalate " " args)
                st.sites st.excludedSites)⟩ := rfl

theorem processCommand_scrape_morning (st : SessionState) (backend : Nat → AttemptOutcome)
    (args : List String) :
    processCommand st backend "scrape-morning" args
      = if st.sites.length = 0 then ⟨st, [noSitesMsg], none, none⟩
        else if st.morningQuery.getD "" = "" then ⟨st, [scrapeUsage], none, none⟩
        else
          match (scrapeWithGrounding backend (st.morningQuery.getD "")
              st.sites st.excludedSites).result with
          | .success _ =>
            ⟨st, ["Morning Scrape: \"" ++ st.morningQuery.getD "" ++ "\""],
              some (st.morningQuery.getD ""),
              some (scrapeWithGrounding backend (st.morningQuery.getD "")
                st.sites st.excludedSites)⟩
          | .failure m =>
            ⟨st, ["Error: " ++ m], some (st.morningQuery.getD ""),
              some (scrapeWithGrounding backend (st.morningQuery.getD "")
                st.sites st.excludedSites)⟩ := rfl

theorem webProcessCommand_scrape (st : WebState) (backend : Nat → AttemptOutcome)
    (args : List String) :
    webProcessCommand st backend "scrape" args
      = if st.sites.length = 0 then ⟨st, [webNoSitesMsg], none, none⟩
        else if String.intercalate " " args = "" then ⟨st, [scrapeUsage], none, none⟩
        else
          match (scrapeWithGrounding backend (String.intercalate " " args)
              st.sites st.excludedSites).result with
          | .success r =>
            ⟨st, [r.text], some (String.intercalate " " args),
              some (scrapeWithGrounding backend (String.intercalate " " args)
                st.sites st.excludedSites)⟩
          | .failure m =>
            ⟨st, ["Error: " ++ m], some (String.intercalate " " args),
              some (scrapeWithGrounding backend (String.intercalate " " args)
                st.sites st.excludedSites)⟩ := rfl

theorem webProcessCommand_scrape_morning (st : WebState) (backend : Nat → AttemptOutcome)
    (args : List String) :
    webProcessCommand st backend "scrape-morning" args
      = if st.sites.length = 0 then ⟨st, [webNoSitesMsg], none, none⟩
        else
          match (scrapeWithGrounding backend st.morningQuery
              st.sites st.excludedSites).result with
          | .success r =>
            ⟨st, ["Morning Scrape Results for: \"" ++ st.morningQuery ++ "\"", r.text],
              some st.morningQuery,
              some (scrapeWithGrounding backend st.morningQuery st.sites st.excludedSites)⟩
          | .failure m =>
            ⟨st, ["Error: " ++ m], some st.morningQuery,
              some (scrapeWithGrounding backend st.morningQuery st.sites st.excludedSites)⟩ := rfl

/-- C6 counterexample: in the browser variant, a state with one priority site
and an empty stored morning query makes scrape-morning invoke the
orchestrator with the empty query instead of printing the usage message —
there is no non-empty-query check in that branch. -/
theorem web_scrape_morning_skips_query_check :
    (webProcessCommand ⟨["a.com"], [], ""⟩ (fun _ => AttemptOutcome.ok ⟨"t", none⟩)
        "scrape-morning" []).invoked = some "" ∧
    ¬ (webProcessCommand ⟨["a.com"], [], ""⟩ (fun _ => AttemptOutcome.ok ⟨"t", none⟩)
        "scrape-morning" []).output = [scrapeUsage] := by decide

/-- C6 amended: with an empty priority-site list both variants print the
fixed no-priority-sites message and never invoke the backend; with at least
one priority site, scrape (both variants) and the terminal scrape-morning
require a non-empty query (argument text, resp. stored morning query) before
invoking the orchestrator and print the usage message otherwise; the browser
scrape-morning performs no query check and always invokes the orchestrator
with the stored morning query. -/
theorem scrape_guards_corrected (st : SessionState) (wst : WebState)
    (backend : Nat → AttemptOutcome) (args : List String) :
    (st.sites = [] →
      processCommand st backend "scrape" args = ⟨st, [noSitesMsg], none, none⟩ ∧
      processCommand st backend "scrape-morning" args = ⟨st, [noSitesMsg], none, none⟩) ∧
    (st.sites ≠ [] → String.intercalate " " args = "" →
      processCommand st backend "scrape" args = ⟨st, [scrapeUsage], none, none⟩) ∧
    (st.sites ≠ [] → st.morningQuery.getD "" = "" →
      processCommand st backend "scrape-morning" args = ⟨st, [scrapeUsage], none, none⟩) ∧
    (st.sites ≠ [] → String.intercalate " " args ≠ "" →
      (processCommand st backend "scrape" args).invoked
        = some (String.intercalate " " args)) ∧
    (st.sites ≠ [] → st.morningQuery.getD "" ≠ "" →
      (processCommand st backend "scrape-morning" args).invoked
        = some (st.morningQuery.getD "")) ∧
    (wst.sites = [] →
      webProcessCommand wst backend "scrape" args = ⟨wst, [webNoSitesMsg], none, none⟩ ∧
      webProcessCommand wst backend "scrape-morning" args
        = ⟨wst, [webNoSitesMsg], none, none⟩) ∧
    (wst.sites ≠ [] → String.intercalate " " args = "" →
      webProcessCommand wst backend "scrape" args = ⟨wst, [scrapeUsage], none, none⟩) ∧
    (wst.sites ≠ [] →
      (webProcessCommand wst backend "scrape-morning" args).invoked
        = some wst.morningQuery) := by
  have hlen : st.sites ≠ [] → ¬st.sites.length = 0 :=
    fun hne h => hne (List.length_eq_zero.mp h)
  have hwlen : wst.sites ≠ [] → ¬wst.sites.length = 0 :=
    fun hne h => hne (List.length_eq_zero.mp h)
  refine ⟨?_, ?_, ?_, ?_, ?_, ?_, ?_, ?_⟩
  · intro h
    have h0 : st.sites.length = 0 := by rw [h]; rfl
    rw [processCommand_scrape, processCommand_scrape_morning, if_pos h0, if_pos h0]
    exact ⟨rfl, rfl⟩
  · intro hne hq
    rw [processCommand_scrape, if_neg (hlen hne), if_pos hq]
  · intro hne hq
    rw [processCommand_scrape_morning, if_neg (hlen hne), if_pos hq]
  · intro hne hq
    rw [processCommand_scrape, if_neg (hlen hne), if_neg hq]
    split <;> rfl
  · intro hne hq
    rw [processCommand_scrape_morning, if_neg (hlen hne), if_neg hq]
    split <;> rfl
  · intro h
    have h0 : wst.sites.length = 0 := by rw [h]; rfl
    rw [webProcessCommand_scrape, webProcessCommand_scrape_morning, if_pos h0, if_pos h0]
    exact ⟨rfl, rfl⟩
  · intro hne hq
    rw [webProcessCommand_scrape, if_neg (hwlen hne), if_pos hq]
  · intro hne
    rw [webProcessCommand_scrape_morning, if_neg (hwlen hne)]
    split <;> rfl

/-- Witness for the amended C6: with no priority sites, scrape prints the
fixed error message and does not invoke the backend; in the browser variant
with one priority site, scrape-morning invokes the orchestrator with the
stored morning query. -/
theorem scrape_guards_witness :
    processCommand ⟨[], [], some "m"⟩ (fun _ => AttemptOutcome.ok ⟨"t", none⟩) "scrape" ["x"]
      = ⟨⟨[], [], some "m"⟩, [noSitesMsg], none, none⟩ ∧
    (webProcessCommand ⟨["a.com"], [], "m"⟩ (fun _ => AttemptOutcome.ok ⟨"t", none⟩)
        "scrape-morning" []).invoked = some "m" :=
  ⟨((scrape_guards_corrected ⟨[], [], some "m"⟩ ⟨["a.com"], [], "m"⟩
      (fun _ => AttemptOutcome.ok ⟨"t", none⟩) ["x"]).1 rfl).1,
    (scrape_guards_corrected ⟨[], [], some "m"⟩ ⟨["a.com"], [], "m"⟩
      (fun _ => AttemptOutcome.ok ⟨"t", none⟩) []).2.2.2.2.2.2.2 (by decide)⟩

/-- C7: saving any session state and loading it back (simulating a restart)
yields the identical structure, for any site lists (including empty) and any
morning query value, and logs no error. -/
theorem save_load_roundtrip (prev s : SessionState) :
    loadState prev (.ok (saveStateFile s)) = (s, false) := rfl

/-- C8: the load operation never propagates a failure: a missing state file
returns the defaults without logging, and a malformed state file logs the
error and leaves the defaults in place. -/
theorem load_swallows_failures :
    loadState defaultState .missing = (defaultState, false) ∧
    loadState defaultState .malformed = (defaultState, true) := ⟨rfl, rfl⟩

/-- C9: the scrape and scrape-morning commands leave the session state
(priority sites, excluded sites, morning query) unchanged in both variants,
whatever the backend does. -/
theorem scrape_commands_preserve_state (st : SessionState) (wst : WebState)
    (backend : Nat → AttemptOutcome) (cmd : String) (args : List String)
    (h : jsToLower cmd = "scrape" ∨ jsToLower cmd = "scrape-morning") :
    (processCommand st backend cmd args).state = st ∧
    (webProcessCommand wst backend cmd args).state = wst := by
  rcases h with h | h
  · constructor
    · simp only [processCommand]
      rw [h]
      rw [if_neg (show ¬("scrape" = "add-site") by decide),
        if_neg (show ¬("scrape" = "set-morning-query") by decide),
        if_pos (show ("scrape" = "scrape" ∨ "scrape" = "scrape-morning") from Or.inl rfl)]
      simp only [eq_false (show ¬("scrape" = "scrape-morning") by decide), if_false]
      split
      · rfl
      · split
        · rfl
        · split <;> rfl
    · simp only [webProcessCommand]
      rw [h]
      rw [if_neg (show ¬("scrape" = "add-site") by decide),
        if_pos (show ("scrape" = "scrape") from rfl)]
      split
      · rfl
      · split
        · rfl
        · split <;> rfl
  · constructor
    · simp only [processCommand]
      rw [h]
      rw [if_neg (show ¬("scrape-morning" = "add-site") by decide),
        if_neg (show ¬("scrape-morning" = "set-morning-query") by decide),
        if_pos (show ("scrape-morning" = "scrape" ∨ "scrape-morning" = "scrape-morning")
          from Or.inr rfl)]
      simp only [eq_true (show ("scrape-morning" = "scrape-morning") from rfl), if_true]
      split
      · rfl
      · split
        · rfl
        · split <;> rfl
    · simp only [webProcessCommand]
      rw [h]
      rw [if_neg (show ¬("scrape-morning" = "add-site") by decide),
        if_neg (show ¬("scrape-morning" = "scrape") by decide),
        if_pos (show ("scrape-morning" = "scrape-morning") from rfl)]
      split
      · rfl
      · split <;> rfl

/-- Witness for C9: a concrete scrape leaves a concrete state unchanged. -/
theorem scrape_preserve_witness :
    (processCommand ⟨["a.com"], ["x.com"], some "mq"⟩
        (fun _ => AttemptOutcome.ok ⟨"t", none⟩) "scrape" ["hello"]).state
      = ⟨["a.com"], ["x.com"], some "mq"⟩ ∧
    (webProcessCommand ⟨["a.com"], [], "mq"⟩
        (fun _ => AttemptOutcome.ok ⟨"t", none⟩) "scrape" ["hello"]).state
      = ⟨["a.com"], [], "mq"⟩ :=
  scrape_commands_preserve_state ⟨["a.com"], ["x.com"], some "mq"⟩ ⟨["a.com"], [], "mq"⟩
    (fun _ => AttemptOutcome.ok ⟨"t", none⟩) "scrape" ["hello"] (Or.inl (by decide))

/-- C10: loading a well-formed persisted object that lacks the morningQuery
key leaves morningQuery absent (not backfilled to the default), and a
subsequent scrape-morning with one priority site prints the usage message
and does not invoke the backend. -/
theorem load_without_morning_query_gives_usage :
    (loadState defaultState (.ok ⟨some ["news.example"], some [], none⟩)).1.morningQuery
      = none ∧
    (processCommand (loadState defaultState (.ok ⟨some ["news.example"], some [], none⟩)).1
        (fun _ => AttemptOutcome.ok ⟨"t", none⟩) "scrape-morning" []).output
      = [scrapeUsage] ∧
    (processCommand (loadState defaultState (.ok ⟨some ["news.example"], some [], none⟩)).1
        (fun _ => AttemptOutcome.ok ⟨"t", none⟩) "scrape-morning" []).invoked
      = none := by decide

end Scraper
